import Mathlib

/-!
Shallow embedding of `src-tauri/src/lib.rs` of battery-analyzer-desktop.

The file defines the two Tauri commands of the repository, `read_directory`
and `process_battery_data`, as pure Lean functions over an explicit model of
the operating-system facilities they touch (filesystem existence checks,
directory enumeration, directory creation, child-process spawning), and then
proves the claims of the specification about them.

Modelling decisions, stated once here:
* Rust `f64` configuration fields are modelled as exact decimal numbers
  (`F64`, an integer mantissa with a power-of-ten scale); `f64ToString`
  models Rust's `f64::to_string` (shortest round-trip decimal rendering),
  which on terminating decimals such as `1.5`, `2.0`, `3.0`, `3.5`,
  `1.4826` prints the decimal expansion with any trailing fractional
  zeros and a trailing `.` removed — exactly what `f64ToString` computes.
* `SystemTime` is modelled as a natural number with `UNIX_EPOCH = 0`; its
  platform-defined `Debug` rendering (`format!`) is a parameter
  `renderTime` of `read_directory`.
* The filesystem is a set of existing paths (`FS`); `fs::create_dir_all`
  either fails with an OS error chosen by the environment or adds the target
  path; `Command::output` is an environment function from the spawned
  program and argument list to either an OS spawn error or a captured
  `status/stdout/stderr` triple.
-/

instance {ε α : Type} [DecidableEq ε] [DecidableEq α] : DecidableEq (Except ε α) :=
  fun a b =>
    match a, b with
    | Except.ok x, Except.ok y =>
        if h : x = y then isTrue (by rw [h]) else isFalse (by simp [h])
    | Except.error x, Except.error y =>
        if h : x = y then isTrue (by rw [h]) else isFalse (by simp [h])
    | Except.ok _, Except.error _ => isFalse (by simp)
    | Except.error _, Except.ok _ => isFalse (by simp)

/-- Models Rust `str::ends_with` for string patterns: the pattern's
character sequence is a suffix of the receiver's. -/
def endsWithStr (s pat : String) : Bool :=
  List.isSuffixOf pat.data s.data

/-- Existing filesystem paths, as seen by `Path::exists`. -/
structure FS where
  existing : List String
deriving DecidableEq, Repr

/-- Models `Path::new(p).exists()`. -/
def FS.pathExists (fs : FS) (p : String) : Bool :=
  fs.existing.contains p

/-- Models a successful `fs::create_dir_all(p)`: afterwards `p` exists
(creating an already-existing directory changes nothing). -/
def FS.createDir (fs : FS) (p : String) : FS :=
  if fs.existing.contains p then fs else ⟨p :: fs.existing⟩

/-- Captured result of `Command::output` when the child could be spawned:
exit-status success flag, stdout and stderr (as text, via
`String::from_utf8_lossy`). -/
structure SpawnOut where
  status_success : Bool
  stdout : String
  stderr : String
deriving DecidableEq, Repr

/-- Environment behaviour of the OS calls `process_battery_data` makes:
`createDirErr p` is the OS error text when `fs::create_dir_all(p)` fails
(`none` = success), and `spawn prog args` is the outcome of
`Command::new(prog).args(args).output()`. -/
structure Env where
  createDirErr : String → Option String
  spawn : String → List String → Except String SpawnOut

/-- Seconds-count model of `std::time::SystemTime`. -/
abbrev SysTime := Nat

/-- Models `std::time::SystemTime::UNIX_EPOCH`. -/
def UNIX_EPOCH : SysTime := 0

/-- Output record of the directory lister (lib.rs lines 6-13). -/
structure FileInfo where
  name : String
  path : String
  size : Nat
  is_excel : Bool
  last_modified : String
deriving DecidableEq, Repr

/-- Result of `entry.metadata()` when it succeeds: `len` is
`metadata.len()` (the file length in bytes) and `modified` is
`metadata.modified()` (a timestamp, or an OS error). -/
structure EntryMeta where
  len : Nat
  modified : Except String SysTime
deriving DecidableEq, Repr

/-- One readable `fs::read_dir` entry: its file name, its path, and the
outcome of `entry.metadata()` (`Except.error e` when the metadata read
fails with OS error text `e`). -/
structure DirEntry where
  file_name : String
  path : String
  metadata : Except String EntryMeta
deriving DecidableEq, Repr

/-- Outcome of `fs::read_dir`: either the raw entry sequence (`none` marks
an entry whose `Result` was `Err`, which the source silently skips) or an
enumeration error. -/
inductive ReadDirResult where
  | ok (entries : List (Option DirEntry))
  | err (e : String)
deriving DecidableEq

/-- The extension filter of lib.rs line 54:
`file_name.ends_with(".xlsx") || file_name.ends_with(".xls")`. -/
def isExcelName (file_name : String) : Bool :=
  endsWithStr file_name ".xlsx" || endsWithStr file_name ".xls"

/-- Models `metadata.modified().unwrap_or(SystemTime::UNIX_EPOCH)`
(lib.rs line 60). -/
def modifiedOrEpoch (metadata : EntryMeta) : SysTime :=
  match metadata.modified with
  | Except.ok t => t
  | Except.error _ => UNIX_EPOCH

/-- The `FileInfo` pushed for a matched entry (lib.rs lines 62-68). -/
def mkFileInfo (renderTime : SysTime → String) (entry : DirEntry)
    (metadata : EntryMeta) : FileInfo :=
  { name := entry.file_name
    path := entry.path
    size := metadata.len
    is_excel := isExcelName entry.file_name
    last_modified := renderTime (modifiedOrEpoch metadata) }

/-- The entry loop of `read_directory` (lib.rs lines 50-71): skips
unreadable raw entries, skips non-spreadsheet names, aborts the whole call
on a failed `entry.metadata()` (the `?` operator), and otherwise pushes a
`FileInfo` per matched entry in enumeration order. -/
def processEntries (renderTime : SysTime → String) :
    List (Option DirEntry) → Except String (List FileInfo)
  | [] => Except.ok []
  | none :: rest => processEntries renderTime rest
  | some entry :: rest =>
      if isExcelName entry.file_name then
        match entry.metadata with
        | Except.error e => Except.error ("读取文件元数据失败: " ++ e)
        | Except.ok metadata =>
            match processEntries renderTime rest with
            | Except.error msg => Except.error msg
            | Except.ok files =>
                Except.ok (mkFileInfo renderTime entry metadata :: files)
      else processEntries renderTime rest

/-- The Tauri command `read_directory` (lib.rs lines 40-77), parameterised
by the `Debug` rendering of timestamps, the existence of the directory, and
the outcome of `fs::read_dir`. -/
def read_directory (renderTime : SysTime → String) (dirExists : Bool)
    (rd : ReadDirResult) : Except String (List FileInfo) :=
  if !dirExists then Except.error "文件夹不存在"
  else
    match rd with
    | ReadDirResult.ok entries => processEntries renderTime entries
    | ReadDirResult.err e => Except.error ("读取文件夹失败: " ++ e)

/-- Modelled from the spec: \"entries' metadata is all readable\" — every raw
entry is readable and every matched (spreadsheet-named) entry's
`entry.metadata()` succeeds. -/
def entryReadable : Option DirEntry → Bool
  | none => false
  | some entry =>
      !(isExcelName entry.file_name) ||
        (match entry.metadata with
         | Except.ok _ => true
         | Except.error _ => false)

/-- Modelled from the spec: the expected listing — exactly the entries whose
names end in `.xlsx` or `.xls`, each rendered to a `FileInfo`, in
enumeration order (entries whose metadata failed contribute nothing; they
only matter to the abort claims). -/
def expectedListing (renderTime : SysTime → String)
    (entries : List (Option DirEntry)) : List FileInfo :=
  entries.filterMap fun oe =>
    match oe with
    | none => none
    | some entry =>
        if isExcelName entry.file_name then
          match entry.metadata with
          | Except.ok metadata => some (mkFileInfo renderTime entry metadata)
          | Except.error _ => none
        else none

/-- Exact decimal model of a Rust `f64` value: `num / 10 ^ scale`. -/
structure F64 where
  num : Int
  scale : Nat
deriving DecidableEq, Repr

/-- Removes factors of ten shared by the mantissa and the scale, the
normalisation step of shortest round-trip decimal rendering. -/
def stripTenFactors : Int → Nat → Int × Nat
  | n, 0 => (n, 0)
  | n, Nat.succ k => if n % 10 == 0 then stripTenFactors (n / 10) k else (n, Nat.succ k)

/-- Models Rust `f64::to_string` (shortest round-trip rendering) on
decimal values: the decimal expansion with trailing fractional zeros
removed, and no decimal point when the value is integral — so `2.0`
prints as `2` and `1.5` as `1.5`. -/
def f64ToString (x : F64) : String :=
  let p := stripTenFactors x.num x.scale
  let n := p.1
  let k := p.2
  let sign := if n < 0 then "-" else ""
  let a := n.natAbs
  if k == 0 then sign ++ toString a
  else
    let ip := a / 10 ^ k
    let fp := a % 10 ^ k
    let fpStr := toString fp
    let pad := String.mk (List.replicate (k - fpStr.length) '0')
    sign ++ toString ip ++ "." ++ pad ++ fpStr

/-- The configuration record of lib.rs lines 15-36. -/
structure ProcessConfig where
  input_folder : String
  output_folder : String
  outlier_method : String
  boxplot_threshold_discharge : F64
  boxplot_threshold_efficiency : F64
  zscore_threshold_discharge : F64
  zscore_threshold_efficiency : F64
  zscore_mad_constant : F64
  reference_channel_method : String
  verbose : Bool
  enable_progress_bar : Bool
deriving DecidableEq, Repr

/-- The script path of lib.rs line 99. -/
def pythonScript : String := "../main.py"

/-- The flag/value sequence handed to the external program, built by the
`cmd.arg` chain of lib.rs lines 109-122 (everything after the script
path, including the conditional trailing `--verbose`). -/
def progArgs (config : ProcessConfig) (output_folder : String) : List String :=
  ["--input_folder", config.input_folder,
   "--output_folder", output_folder,
   "--outlier_method", config.outlier_method,
   "--reference_channel_method", config.reference_channel_method,
   "--boxplot_threshold_discharge", f64ToString config.boxplot_threshold_discharge,
   "--boxplot_threshold_efficiency", f64ToString config.boxplot_threshold_efficiency,
   "--zscore_threshold_discharge", f64ToString config.zscore_threshold_discharge,
   "--zscore_threshold_efficiency", f64ToString config.zscore_threshold_efficiency,
   "--zscore_mad_constant", f64ToString config.zscore_mad_constant]
  ++ (if config.verbose then ["--verbose"] else [])

/-- The output-folder resolution of lib.rs lines 88-92, as a standalone
pure function of the configuration. -/
def effectiveOutputFolder (config : ProcessConfig) : String :=
  if config.output_folder.isEmpty then config.input_folder
  else config.output_folder

/-- The spawn-and-report tail of `process_battery_data`
(lib.rs lines 125-136): run the child, then on success status return the
marker-prefixed stdout, on failure status return the stderr error, and on
a spawn error return the launch error. -/
def spawnPhase (env : Env) (prog : String) (args : List String) (fs : FS) :
    Except String String × FS :=
  match env.spawn prog args with
  | Except.ok output =>
      if output.status_success then
        (Except.ok ("✅ 数据处理完成！\n\n" ++ output.stdout), fs)
      else
        (Except.error ("❌ Python脚本执行失败:\n" ++ output.stderr), fs)
  | Except.error e => (Except.error ("❌ 启动Python脚本失败: " ++ e), fs)

/-- Lines 94-136 of `process_battery_data`, after the output folder has
been resolved: create the output directory, check the script exists, then
spawn `python` on the script with the configured flags. -/
def runBody (config : ProcessConfig) (output_folder : String) (fs : FS) (env : Env) :
    Except String String × FS :=
  match env.createDirErr output_folder with
  | some e => (Except.error ("创建输出文件夹失败: " ++ e), fs)
  | none =>
      let fs1 := fs.createDir output_folder
      if !(fs1.pathExists pythonScript) then
        (Except.error ("Python脚本不存在: " ++ pythonScript), fs1)
      else
        spawnPhase env "python" (pythonScript :: progArgs config output_folder) fs1

/-- The Tauri command `process_battery_data` (lib.rs lines 81-137): check
the input folder exists, resolve the output folder, and run the body.
Returns the command's `Result` together with the filesystem state after
the call. -/
def process_battery_data (config : ProcessConfig) (fs : FS) (env : Env) :
    Except String String × FS :=
  if !(fs.pathExists config.input_folder) then
    (Except.error "输入文件夹不存在", fs)
  else
    let output_folder :=
      if config.output_folder.isEmpty then config.input_folder
      else config.output_folder
    runBody config output_folder fs env

/-- Modelled from the spec (§4.2 step 5): the nine flag/value pairs in the
fixed order the spec lists, the value of `--output_folder` being the
resolved effective output folder. -/
def specFlagPairs (config : ProcessConfig) : List (String × String) :=
  [("--input_folder", config.input_folder),
   ("--output_folder", effectiveOutputFolder config),
   ("--outlier_method", config.outlier_method),
   ("--reference_channel_method", config.reference_channel_method),
   ("--boxplot_threshold_discharge", f64ToString config.boxplot_threshold_discharge),
   ("--boxplot_threshold_efficiency", f64ToString config.boxplot_threshold_efficiency),
   ("--zscore_threshold_discharge", f64ToString config.zscore_threshold_discharge),
   ("--zscore_threshold_efficiency", f64ToString config.zscore_threshold_efficiency),
   ("--zscore_mad_constant", f64ToString config.zscore_mad_constant)]

/-- Modelled from the spec (§4.2 step 5): each flag followed by its value,
in the fixed order, then `--verbose` exactly when `config.verbose`; no
flag for `enable_progress_bar` appears in the template. -/
def specArgList (config : ProcessConfig) : List String :=
  (specFlagPairs config).flatMap (fun p => [p.1, p.2])
  ++ (if config.verbose then ["--verbose"] else [])

/-- The configuration with only `enable_progress_bar` replaced. -/
def withEnableProgressBar (config : ProcessConfig) (b : Bool) : ProcessConfig :=
  { config with enable_progress_bar := b }

/-- The worked example configuration of spec §8. -/
def exampleConfig : ProcessConfig :=
  { input_folder := "/data/in"
    output_folder := ""
    outlier_method := "boxplot"
    boxplot_threshold_discharge := ⟨15, 1⟩
    boxplot_threshold_efficiency := ⟨20, 1⟩
    zscore_threshold_discharge := ⟨30, 1⟩
    zscore_threshold_efficiency := ⟨35, 1⟩
    zscore_mad_constant := ⟨14826, 4⟩
    reference_channel_method := ""
    verbose := true
    enable_progress_bar := false }

/-- A filesystem in which the example input folder and the script exist. -/
def fsW : FS := ⟨["/data/in", "../main.py"]⟩

/-- A filesystem in which the input folder exists but the script does not. -/
def fsNoScript : FS := ⟨["/data/in"]⟩

/-- An environment where directory creation succeeds and the child exits
with status 0 printing `done`. -/
def envOk : Env := ⟨fun _ => none, fun _ _ => Except.ok ⟨true, "done", ""⟩⟩

/-- The example configuration with a missing input folder. -/
def cfgMissing : ProcessConfig := { exampleConfig with input_folder := "/absent" }

/-- The example configuration with an explicit output folder. -/
def cfgOut : ProcessConfig := { exampleConfig with output_folder := "/out" }

/-! ## Helper lemmas shared between claim theorems -/

theorem process_eq_runBody (config : ProcessConfig) (fs : FS) (env : Env)
    (h : fs.pathExists config.input_folder = true) :
    process_battery_data config fs env =
      runBody config (effectiveOutputFolder config) fs env := by
  simp [process_battery_data, h, effectiveOutputFolder]

theorem runBody_spawn (config : ProcessConfig) (out : String) (fs : FS) (env : Env)
    (h2 : env.createDirErr out = none)
    (h3 : (fs.createDir out).pathExists pythonScript = true) :
    runBody config out fs env =
      spawnPhase env "python" (pythonScript :: progArgs config out) (fs.createDir out) := by
  simp [runBody, h2, h3]

theorem runBody_script_missing (config : ProcessConfig) (out : String) (fs : FS) (env : Env)
    (h2 : env.createDirErr out = none)
    (h3 : (fs.createDir out).pathExists pythonScript = false) :
    runBody config out fs env =
      (Except.error ("Python脚本不存在: " ++ pythonScript), fs.createDir out) := by
  simp [runBody, h2, h3]

theorem createDir_self (fs : FS) (p : String) :
    (fs.createDir p).pathExists p = true := by
  unfold FS.createDir FS.pathExists
  by_cases h : p ∈ fs.existing
  · simp [h]
  · simp [h]

theorem progArgs_eq_specArgList (config : ProcessConfig) :
    progArgs config (effectiveOutputFolder config) = specArgList config := rfl

/-! ## Claim theorems for the process launcher -/

/-- C1: for every configuration whose input folder exists, the argument
list `run` hands the external program is exactly the spec's fixed-order
template — each configured value once, as the value of its flag, in the
order `--input_folder`, `--output_folder`, `--outlier_method`,
`--reference_channel_method`, `--boxplot_threshold_discharge`,
`--boxplot_threshold_efficiency`, `--zscore_threshold_discharge`,
`--zscore_threshold_efficiency`, `--zscore_mad_constant`, followed by
`--verbose` iff `config.verbose`; the flag set contains no flag for
`enable_progress_bar`, and the list is independent of that field. -/
theorem run_arg_list_matches_spec (config : ProcessConfig) :
    progArgs config (effectiveOutputFolder config) = specArgList config
    ∧ (specFlagPairs config).map Prod.fst =
        ["--input_folder", "--output_folder", "--outlier_method",
         "--reference_channel_method", "--boxplot_threshold_discharge",
         "--boxplot_threshold_efficiency", "--zscore_threshold_discharge",
         "--zscore_threshold_efficiency", "--zscore_mad_constant"]
    ∧ (∀ b, progArgs (withEnableProgressBar config b)
          (effectiveOutputFolder (withEnableProgressBar config b))
          = progArgs config (effectiveOutputFolder config))
    ∧ (∀ fs env, fs.pathExists config.input_folder = true →
        env.createDirErr (effectiveOutputFolder config) = none →
        (fs.createDir (effectiveOutputFolder config)).pathExists pythonScript = true →
        process_battery_data config fs env =
          spawnPhase env "python" (pythonScript :: specArgList config)
            (fs.createDir (effectiveOutputFolder config))) := by
  refine ⟨rfl, rfl, fun b => rfl, fun fs env h1 h2 h3 => ?_⟩
  rw [process_eq_runBody config fs env h1, runBody_spawn config _ fs env h2 h3,
    progArgs_eq_specArgList]

theorem run_arg_list_matches_spec_witness :
    fsW.pathExists exampleConfig.input_folder = true
    ∧ envOk.createDirErr (effectiveOutputFolder exampleConfig) = none
    ∧ (fsW.createDir (effectiveOutputFolder exampleConfig)).pathExists pythonScript = true
    ∧ process_battery_data exampleConfig fsW envOk =
        spawnPhase envOk "python" (pythonScript :: specArgList exampleConfig)
          (fsW.createDir (effectiveOutputFolder exampleConfig)) :=
  ⟨by decide, rfl, by decide,
    (run_arg_list_matches_spec exampleConfig).2.2.2 fsW envOk (by decide) rfl (by decide)⟩

/-- C2: on the spec's worked example configuration, the argument list is
exactly the eighteen flag/value strings followed by `--verbose`, with the
whole-valued thresholds `2.0` and `3.0` rendered as `2` and `3`. -/
theorem example_config_arg_list :
    progArgs exampleConfig (effectiveOutputFolder exampleConfig) =
      ["--input_folder", "/data/in",
       "--output_folder", "/data/in",
       "--outlier_method", "boxplot",
       "--reference_channel_method", "",
       "--boxplot_threshold_discharge", "1.5",
       "--boxplot_threshold_efficiency", "2",
       "--zscore_threshold_discharge", "3",
       "--zscore_threshold_efficiency", "3.5",
       "--zscore_mad_constant", "1.4826",
       "--verbose"]
    ∧ f64ToString exampleConfig.boxplot_threshold_efficiency = "2"
    ∧ f64ToString exampleConfig.zscore_threshold_discharge = "3" := by
  refine ⟨?_, ?_, ?_⟩ <;> decide

/-- C3: the effective output folder equals `output_folder` when that is
non-empty and `input_folder` when it is empty; it is computed by the pure
function `effectiveOutputFolder` of the configuration alone, and `run`
proceeds with exactly that resolved value (the configuration record itself
is never changed — the embedding of `run` takes and returns it nowhere). -/
theorem output_folder_resolution (config : ProcessConfig) :
    (config.output_folder = "" → effectiveOutputFolder config = config.input_folder)
    ∧ (config.output_folder ≠ "" → effectiveOutputFolder config = config.output_folder)
    ∧ (∀ fs env, fs.pathExists config.input_folder = true →
        process_battery_data config fs env =
          runBody config (effectiveOutputFolder config) fs env) := by
  refine ⟨fun h => ?_, fun h => ?_, fun fs env h => process_eq_runBody config fs env h⟩
  · unfold effectiveOutputFolder
    rw [h]
    rfl
  · have h2 : config.output_folder.isEmpty = false := by
      cases hb : config.output_folder.isEmpty
      · rfl
      · exact absurd ((String.isEmpty_iff config.output_folder).mp hb) h
    unfold effectiveOutputFolder
    rw [h2]
    rfl

theorem output_folder_resolution_witness :
    exampleConfig.output_folder = ""
    ∧ effectiveOutputFolder exampleConfig = exampleConfig.input_folder :=
  ⟨rfl, (output_folder_resolution exampleConfig).1 rfl⟩

/-- C4: once the external program is actually executed (input folder
present, output folder created, script found): exit status 0 yields
`Ok` of the success marker followed by the captured stdout; a non-zero
exit yields the `ExternalFailure` error carrying the captured stderr; and
a spawn failure yields the `LaunchError` error carrying the OS error
text. -/
theorem run_external_outcomes (config : ProcessConfig) (fs : FS) (env : Env)
    (h1 : fs.pathExists config.input_folder = true)
    (h2 : env.createDirErr (effectiveOutputFolder config) = none)
    (h3 : (fs.createDir (effectiveOutputFolder config)).pathExists pythonScript = true) :
    (∀ r, env.spawn "python"
        (pythonScript :: progArgs config (effectiveOutputFolder config)) = Except.ok r →
      r.status_success = true →
      process_battery_data config fs env =
        (Except.ok ("✅ 数据处理完成！\n\n" ++ r.stdout),
         fs.createDir (effectiveOutputFolder config)))
    ∧ (∀ r, env.spawn "python"
        (pythonScript :: progArgs config (effectiveOutputFolder config)) = Except.ok r →
      r.status_success = false →
      process_battery_data config fs env =
        (Except.error ("❌ Python脚本执行失败:\n" ++ r.stderr),
         fs.createDir (effectiveOutputFolder config)))
    ∧ (∀ e, env.spawn "python"
        (pythonScript :: progArgs config (effectiveOutputFolder config)) = Except.error e →
      process_battery_data config fs env =
        (Except.error ("❌ 启动Python脚本失败: " ++ e),
         fs.createDir (effectiveOutputFolder config))) := by
  have key : process_battery_data config fs env =
      spawnPhase env "python"
        (pythonScript :: progArgs config (effectiveOutputFolder config))
        (fs.createDir (effectiveOutputFolder config)) := by
    rw [process_eq_runBody config fs env h1, runBody_spawn config _ fs env h2 h3]
  refine ⟨fun r hr hs => ?_, fun r hr hs => ?_, fun e he => ?_⟩
  · rw [key]; simp [spawnPhase, hr, hs]
  · rw [key]; simp [spawnPhase, hr, hs]
  · rw [key]; simp [spawnPhase, he]

theorem run_external_outcomes_witness :
    envOk.spawn "python"
        (pythonScript :: progArgs exampleConfig (effectiveOutputFolder exampleConfig))
      = Except.ok ⟨true, "done", ""⟩
    ∧ process_battery_data exampleConfig fsW envOk =
        (Except.ok ("✅ 数据处理完成！\n\n" ++ "done"),
         fsW.createDir (effectiveOutputFolder exampleConfig)) :=
  ⟨rfl, (run_external_outcomes exampleConfig fsW envOk (by decide) rfl (by decide)).1
    ⟨true, "done", ""⟩ rfl rfl⟩

/-- C5: when the input folder does not exist, `run` fails immediately with
the `InputMissing` error, the filesystem is returned unchanged, and the
outcome is the same whatever the environment would have done — no
directory creation and no spawn is consulted. -/
theorem run_input_missing (config : ProcessConfig) (fs : FS) (env : Env)
    (h : fs.pathExists config.input_folder = false) :
    process_battery_data config fs env = (Except.error "输入文件夹不存在", fs)
    ∧ ∀ env2 : Env, process_battery_data config fs env2 =
        process_battery_data config fs env := by
  constructor
  · simp [process_battery_data, h]
  · intro env2
    simp [process_battery_data, h]

theorem run_input_missing_witness :
    fsW.pathExists cfgMissing.input_folder = false
    ∧ process_battery_data cfgMissing fsW envOk = (Except.error "输入文件夹不存在", fsW) :=
  ⟨by decide, (run_input_missing cfgMissing fsW envOk (by decide)).1⟩

/-- C10: when the script is missing, `run` fails with `ScriptMissing`, but
the effective output directory has already been created by that same call:
the returned filesystem is the one with the directory added, in which the
effective output folder exists. -/
theorem run_script_missing_after_create (config : ProcessConfig) (fs : FS) (env : Env)
    (h1 : fs.pathExists config.input_folder = true)
    (h2 : env.createDirErr (effectiveOutputFolder config) = none)
    (h3 : (fs.createDir (effectiveOutputFolder config)).pathExists pythonScript = false) :
    process_battery_data config fs env =
      (Except.error ("Python脚本不存在: " ++ pythonScript),
       fs.createDir (effectiveOutputFolder config))
    ∧ (process_battery_data config fs env).2.pathExists (effectiveOutputFolder config)
        = true := by
  have key : process_battery_data config fs env =
      (Except.error ("Python脚本不存在: " ++ pythonScript),
       fs.createDir (effectiveOutputFolder config)) := by
    rw [process_eq_runBody config fs env h1, runBody_script_missing config _ fs env h2 h3]
  exact ⟨key, by rw [key]; exact createDir_self fs _⟩

/-! ## Directory lister: helper lemmas -/

theorem processEntries_all_readable (renderTime : SysTime → String)
    (entries : List (Option DirEntry))
    (h : entries.all entryReadable = true) :
    processEntries renderTime entries = Except.ok (expectedListing renderTime entries) := by
  induction entries with
  | nil => rfl
  | cons oe rest ih =>
      rw [List.all_cons, Bool.and_eq_true] at h
      obtain ⟨h1, h2⟩ := h
      cases oe with
      | none => exact absurd h1 (by simp [entryReadable])
      | some entry =>
          cases hx : isExcelName entry.file_name with
          | false =>
              simpa [processEntries, expectedListing, hx] using ih h2
          | true =>
              cases hm : entry.metadata with
              | error e =>
                  exfalso
                  simp [entryReadable, hx, hm] at h1
              | ok m =>
                  simp [processEntries, expectedListing, hx, hm, ih h2]

theorem processEntries_ok_names (renderTime : SysTime → String) :
    ∀ (entries : List (Option DirEntry)) (fis : List FileInfo),
      processEntries renderTime entries = Except.ok fis →
      ∀ fi ∈ fis, isExcelName fi.name = true := by
  intro entries
  induction entries with
  | nil =>
      intro fis h fi hfi
      simp [processEntries] at h
      subst h
      simp at hfi
  | cons oe rest ih =>
      intro fis h fi hfi
      cases oe with
      | none => exact ih fis (by simpa [processEntries] using h) fi hfi
      | some entry =>
          cases hx : isExcelName entry.file_name with
          | false =>
              rw [show processEntries renderTime (some entry :: rest)
                    = processEntries renderTime rest by simp [processEntries, hx]] at h
              exact ih fis h fi hfi
          | true =>
              cases hm : entry.metadata with
              | error e => simp [processEntries, hx, hm] at h
              | ok m =>
                  cases hr : processEntries renderTime rest with
                  | error msg => simp [processEntries, hx, hm, hr] at h
                  | ok l =>
                      have hfis : fis = mkFileInfo renderTime entry m :: l := by
                        have := h
                        simp [processEntries, hx, hm, hr] at this
                        exact this.symm
                      rw [hfis] at hfi
                      rcases List.mem_cons.mp hfi with heq | htail
                      · rw [heq]
                        exact hx
                      · exact ih l hr fi htail

theorem processEntries_meta_error (renderTime : SysTime → String) :
    ∀ (entries : List (Option DirEntry)) (d : DirEntry) (e : String),
      some d ∈ entries → isExcelName d.file_name = true →
      d.metadata = Except.error e →
      ∃ e2, processEntries renderTime entries =
        Except.error ("读取文件元数据失败: " ++ e2) := by
  intro entries
  induction entries with
  | nil => intro d e hmem; simp at hmem
  | cons oe rest ih =>
      intro d e hmem hx hm
      rcases List.mem_cons.mp hmem with heq | hmem2
      · rw [← heq]
        exact ⟨e, by simp [processEntries, hx, hm]⟩
      · obtain ⟨e2, hrec⟩ := ih d e hmem2 hx hm
        cases oe with
        | none => exact ⟨e2, by simpa [processEntries] using hrec⟩
        | some entry =>
            cases hx2 : isExcelName entry.file_name with
            | false => exact ⟨e2, by simpa [processEntries, hx2] using hrec⟩
            | true =>
                cases hm2 : entry.metadata with
                | error e3 => exact ⟨e3, by simp [processEntries, hx2, hm2]⟩
                | ok m => exact ⟨e2, by simp [processEntries, hx2, hm2, hrec]⟩

/-! ## Concrete directory fixtures -/

/-- A concrete timestamp rendering standing in for `SystemTime`'s `Debug`
format. -/
def renderTimeW : SysTime → String := fun t => toString t

def entryA : DirEntry := ⟨"a.xlsx", "/d/a.xlsx", Except.ok ⟨10, Except.ok 5⟩⟩

def entryB : DirEntry := ⟨"b.txt", "/d/b.txt", Except.ok ⟨3, Except.ok 7⟩⟩

def entriesW : List (Option DirEntry) := [some entryA, some entryB]

def entryBad : DirEntry := ⟨"c.xlsx", "/d/c.xlsx", Except.error "denied"⟩

def entriesBad : List (Option DirEntry) := [some entryA, some entryBad]

def entryUp : DirEntry := ⟨"REPORT.XLSX", "/d/REPORT.XLSX", Except.ok ⟨1, Except.ok 0⟩⟩

def entriesUp : List (Option DirEntry) := [some entryUp]

def metaMod : EntryMeta := ⟨4, Except.error "clock"⟩

def entryMod : DirEntry := ⟨"m.xlsx", "/d/m.xlsx", Except.ok metaMod⟩

def entriesMod : List (Option DirEntry) := [some entryMod]

/-! ## Claim theorems for the directory lister -/

/-- C6: over an existing, readable directory all of whose entries are
readable and whose matched entries' metadata reads succeed,
`read_directory` succeeds with exactly the spreadsheet-named entries, and
a `FileInfo` is in that listing precisely when it renders a matched entry
whose metadata was read — in particular its `size` is that entry's
byte length `metadata.len`. -/
theorem read_directory_exact_listing (renderTime : SysTime → String)
    (entries : List (Option DirEntry))
    (hread : entries.all entryReadable = true) :
    read_directory renderTime true (ReadDirResult.ok entries)
      = Except.ok (expectedListing renderTime entries)
    ∧ ∀ fi, fi ∈ expectedListing renderTime entries ↔
        ∃ entry metadata, some entry ∈ entries
          ∧ isExcelName entry.file_name = true
          ∧ entry.metadata = Except.ok metadata
          ∧ fi = mkFileInfo renderTime entry metadata := by
  constructor
  · simpa [read_directory] using processEntries_all_readable renderTime entries hread
  · intro fi
    constructor
    · intro hfi
      rw [expectedListing, List.mem_filterMap] at hfi
      obtain ⟨oe, hmem, hf⟩ := hfi
      cases oe with
      | none => simp at hf
      | some entry =>
          cases hx : isExcelName entry.file_name with
          | false => simp [hx] at hf
          | true =>
              cases hm : entry.metadata with
              | error e => simp [hx, hm] at hf
              | ok m =>
                  simp [hx, hm] at hf
                  exact ⟨entry, m, hmem, hx, hm, hf.symm⟩
    · rintro ⟨entry, m, hmem, hx, hm, hfi⟩
      rw [expectedListing, List.mem_filterMap]
      exact ⟨some entry, hmem, by simp [hx, hm, hfi]⟩

theorem read_directory_exact_listing_witness :
    entriesW.all entryReadable = true
    ∧ read_directory renderTimeW true (ReadDirResult.ok entriesW)
        = Except.ok (expectedListing renderTimeW entriesW) :=
  ⟨by decide, (read_directory_exact_listing renderTimeW entriesW (by decide)).1⟩

/-- C7: a matched spreadsheet entry whose metadata read fails aborts the
whole `read_directory` call with the `MetadataError` error — no partial
listing is ever returned. -/
theorem read_directory_meta_error_aborts (renderTime : SysTime → String)
    (entries : List (Option DirEntry)) (d : DirEntry) (e : String)
    (hmem : some d ∈ entries)
    (hx : isExcelName d.file_name = true)
    (hm : d.metadata = Except.error e) :
    (∃ e2, read_directory renderTime true (ReadDirResult.ok entries)
        = Except.error ("读取文件元数据失败: " ++ e2))
    ∧ ∀ fis, read_directory renderTime true (ReadDirResult.ok entries)
        ≠ Except.ok fis := by
  obtain ⟨e2, h⟩ := processEntries_meta_error renderTime entries d e hmem hx hm
  have hr : read_directory renderTime true (ReadDirResult.ok entries)
      = Except.error ("读取文件元数据失败: " ++ e2) := by
    simpa [read_directory] using h
  refine ⟨⟨e2, hr⟩, fun fis hok => ?_⟩
  rw [hr] at hok
  exact Except.noConfusion hok

theorem read_directory_meta_error_aborts_witness :
    some entryBad ∈ entriesBad
    ∧ isExcelName entryBad.file_name = true
    ∧ ∃ e2, read_directory renderTimeW true (ReadDirResult.ok entriesBad)
        = Except.error ("读取文件元数据失败: " ++ e2) :=
  ⟨by decide, by decide,
    (read_directory_meta_error_aborts renderTimeW entriesBad entryBad "denied"
      (by decide) (by decide) rfl).1⟩

/-- C8: the extension filter is case-sensitive — every listed `FileInfo`
has a name ending in lowercase `.xlsx` or `.xls`, so a directory entry
whose name only ends in an upper- or mixed-case variant (e.g. `.XLSX`,
`.Xls`) never appears in the result. -/
theorem read_directory_filter_case_sensitive (renderTime : SysTime → String)
    (entries : List (Option DirEntry)) (d : DirEntry)
    (_hmem : some d ∈ entries)
    (hname : isExcelName d.file_name = false)
    (fis : List FileInfo)
    (hok : read_directory renderTime true (ReadDirResult.ok entries) = Except.ok fis) :
    ∀ fi ∈ fis, isExcelName fi.name = true ∧ fi.name ≠ d.file_name := by
  have hp : processEntries renderTime entries = Except.ok fis := by
    simpa [read_directory] using hok
  intro fi hfi
  have hxfi := processEntries_ok_names renderTime entries fis hp fi hfi
  refine ⟨hxfi, fun hnn => ?_⟩
  rw [hnn, hname] at hxfi
  exact Bool.noConfusion hxfi

theorem read_directory_filter_case_sensitive_witness :
    some entryUp ∈ entriesUp
    ∧ isExcelName entryUp.file_name = false
    ∧ ∀ fi ∈ ([] : List FileInfo), isExcelName fi.name = true ∧ fi.name ≠ entryUp.file_name :=
  ⟨by decide, by decide,
    read_directory_filter_case_sensitive renderTimeW entriesUp entryUp
      (by decide) (by decide) [] (by decide)⟩

/-- C9: a matched entry whose metadata reads but whose modification time
does not causes no failure: the call still succeeds and that entry is
listed with `last_modified` rendered from `UNIX_EPOCH` instead of a real
timestamp. -/
theorem read_directory_epoch_on_modified_error (renderTime : SysTime → String)
    (entries : List (Option DirEntry)) (d : DirEntry) (m : EntryMeta) (err : String)
    (hread : entries.all entryReadable = true)
    (hmem : some d ∈ entries)
    (hx : isExcelName d.file_name = true)
    (hm : d.metadata = Except.ok m)
    (hmod : m.modified = Except.error err) :
    ∃ fis, read_directory renderTime true (ReadDirResult.ok entries) = Except.ok fis
      ∧ mkFileInfo renderTime d m ∈ fis
      ∧ (mkFileInfo renderTime d m).last_modified = renderTime UNIX_EPOCH := by
  refine ⟨expectedListing renderTime entries, ?_, ?_, ?_⟩
  · simpa [read_directory] using processEntries_all_readable renderTime entries hread
  · rw [expectedListing, List.mem_filterMap]
    exact ⟨some d, hmem, by simp [hx, hm]⟩
  · simp [mkFileInfo, modifiedOrEpoch, hmod]

theorem read_directory_epoch_on_modified_error_witness :
    entriesMod.all entryReadable = true
    ∧ ∃ fis, read_directory renderTimeW true (ReadDirResult.ok entriesMod) = Except.ok fis
        ∧ mkFileInfo renderTimeW entryMod metaMod ∈ fis
        ∧ (mkFileInfo renderTimeW entryMod metaMod).last_modified = renderTimeW UNIX_EPOCH :=
  ⟨by decide,
    read_directory_epoch_on_modified_error renderTimeW entriesMod entryMod metaMod "clock"
      (by decide) (by decide) (by decide) rfl rfl⟩

theorem run_script_missing_after_create_witness :
    fsNoScript.pathExists cfgOut.input_folder = true
    ∧ (fsNoScript.createDir (effectiveOutputFolder cfgOut)).pathExists pythonScript = false
    ∧ process_battery_data cfgOut fsNoScript envOk =
        (Except.error ("Python脚本不存在: " ++ pythonScript),
         fsNoScript.createDir (effectiveOutputFolder cfgOut)) :=
  ⟨by decide, by decide,
    (run_script_missing_after_create cfgOut fsNoScript envOk (by decide) rfl (by decide)).1⟩
